import Mathlib

/-!
Verification of the kopichat-ai audio application against its specification.

The Python sources are shallowly embedded: pure string processing becomes
Lean functions on `String`; calls into external collaborators (the MLX
inference library, the Groq/Gemini network clients, the microphone, the
system MIME guesser, the environment) become explicit oracle parameters;
side effects (device opens, temp-file creation/deletion, terminal writes)
become explicit event traces or state.
-/

namespace Kopichat

/-! ## Python string primitives used by the sources -/

/-- Python whitespace characters stripped by `str.strip()` (ASCII range). -/
def pyIsSpace (c : Char) : Bool :=
  c = ' ' || c = '\t' || c = '\n' || c = '\r' || c = Char.ofNat 11 || c = Char.ofNat 12

/-- Python `str.strip()`: drop whitespace from both ends. -/
def pyStrip (s : String) : String :=
  ⟨((s.data.dropWhile pyIsSpace).reverse.dropWhile pyIsSpace).reverse⟩

/-- Python `str.lower()` (ASCII lowering; every comparison in the sources
is against ASCII-only literals). -/
def pyLower (s : String) : String :=
  ⟨s.data.map Char.toLower⟩

/-- A run of `n` spaces, Python `' ' * n`. -/
def spaces (n : Nat) : String :=
  ⟨List.replicate n ' '⟩

/-- Python format spec `f"{s:<n}"`: left-justify `s` in a field of `n`. -/
def pyLJust (s : String) (n : Nat) : String :=
  s ++ spaces (n - s.length)

/-! ## Exception taxonomy of the sources (`src/config.py`,
`src/live_interaction.py`, builtin Python exceptions) -/

inductive PyExc
  | configurationError (msg : String)
  | transcriptionError (msg : String)
  | valueError (msg : String)
  | fileNotFoundError (msg : String)
  deriving DecidableEq, Repr

def pyExcMsg : PyExc → String
  | .configurationError m => m
  | .transcriptionError m => m
  | .valueError m => m
  | .fileNotFoundError m => m

/-! ## `src/config.py` -/

/-- Error message of `get_api_key` (config.py lines 57-63). -/
def GEMINI_KEY_ERROR_MSG : String :=
  "GEMINI_API_KEY environment variable is not set.\nPlease set it in your .env file or environment:\n  export GEMINI_API_KEY='your-api-key-here'\nOr add it to your .env file:\n  GEMINI_API_KEY=your-api-key-here"

/-- `config.get_api_key`, with the environment passed explicitly:
`os.environ.get("GEMINI_API_KEY")` is the `Option String` argument;
`if not api_key` treats both an absent and an empty value as missing. -/
def get_api_key (gemini_api_key : Option String) : Except PyExc String :=
  match gemini_api_key with
  | none => .error (.configurationError GEMINI_KEY_ERROR_MSG)
  | some k =>
    if k = "" then .error (.configurationError GEMINI_KEY_ERROR_MSG)
    else .ok k

/-! ## `src/live_interaction.py`: Groq client and MLX byte transcription -/

/-- Error message of `get_groq_client` (live_interaction.py lines 73-78). -/
def GROQ_KEY_ERROR_MSG : String :=
  "GROQ_API_KEY environment variable is not set.\nGet your free API key at: https://console.groq.com/keys\nThen add to your .env file:\n  GROQ_API_KEY=your-api-key-here"

/-- `get_groq_client`: raises `TranscriptionError` when `GROQ_API_KEY`
is unset or empty (`if not api_key`). -/
def get_groq_client (groq_api_key : Option String) : Except PyExc Unit :=
  match groq_api_key with
  | none => .error (.transcriptionError GROQ_KEY_ERROR_MSG)
  | some k =>
    if k = "" then .error (.transcriptionError GROQ_KEY_ERROR_MSG)
    else .ok ()

/-- `transcribe_audio_bytes` (the Groq byte path): builds the client, then
performs the API call; the network outcome is the oracle `api`. -/
def transcribe_audio_bytes (groq_api_key : Option String)
    (api : Except PyExc String) : Except PyExc String :=
  match get_groq_client groq_api_key with
  | .error e => .error e
  | .ok _ => api

/-- The hallucination phrase allow-list of `transcribe_audio_bytes_mlx`
(live_interaction.py lines 237-243), verbatim and in source order. -/
def hallucination_phrases : List String :=
  ["thank you", "thanks", "thank you for watching",
   "thank you for listening", "bye", "goodbye",
   "alright", "all right", "okay", "ok",
   "you", "yeah", "yes", "no",
   "please subscribe", "like and subscribe"]

/-- Temp-file lifecycle events of `transcribe_audio_bytes_mlx`. -/
inductive TempFileEvent
  | created
  | unlinked
  deriving DecidableEq, Repr

/-- Whether the temp file exists after a trace of lifecycle events. -/
def tempFileExistsAfter (evs : List TempFileEvent) : Bool :=
  evs.foldl (fun _ e => match e with | .created => true | .unlinked => false) false

/-- `transcribe_audio_bytes_mlx`: writes the buffer to a temp file
(`NamedTemporaryFile(..., delete=False)`), runs `mlx_whisper.transcribe`
(outcome given by the oracle `inference`, carrying `result.get("text", "")`
on success), strips the text, forces hallucination phrases to `""`, and
unlinks the temp file in a `finally` block, so the unlink happens on both
the success and the failure path before the function returns. -/
def transcribe_audio_bytes_mlx (inference : Except String String) :
    Except String String × List TempFileEvent :=
  -- with tempfile.NamedTemporaryFile(suffix=".wav", delete=False) as f: ...
  let createdEvents : List TempFileEvent := [.created]
  -- try: result = mlx_whisper.transcribe(...)
  let body : Except String String :=
    match inference with
    | .error e => .error e
    | .ok raw =>
      -- text = result.get("text", "").strip()
      let text := pyStrip raw
      -- if text.lower() in hallucination_phrases: return ""
      if hallucination_phrases.contains (pyLower text) then .ok ""
      else .ok text
  -- finally: os.unlink(temp_path)  (runs on every exit path)
  (body, createdEvents ++ [.unlinked])

/-! ## `src/live_interaction.py`: file transcription and dispatch -/

/-- Coarse side-effect events of the file-transcription paths. -/
inductive FileIOEvent
  | fileSystemTouched
  | networkCalled
  | localInferenceRun
  deriving DecidableEq, Repr

/-- `transcribe_file_mlx`: existence check, then local inference; the
returned text is `result.get("text", "").strip()` with NO hallucination
phrase filter. -/
def transcribe_file_mlx (file_path : String) (file_exists : Bool)
    (inference : Except String String) : Except PyExc String × List FileIOEvent :=
  if file_exists then
    (match inference with
     | .ok raw => .ok (pyStrip raw)
     | .error e => .error (.transcriptionError e),
     [.fileSystemTouched, .localInferenceRun])
  else
    (.error (.fileNotFoundError ("Audio file not found: " ++ file_path)),
     [.fileSystemTouched])

/-- `transcribe_file_groq`: existence check, client construction, then the
network call (oracle `api`). -/
def transcribe_file_groq (file_path : String) (file_exists : Bool)
    (groq_api_key : Option String) (api : Except PyExc String) :
    Except PyExc String × List FileIOEvent :=
  if file_exists then
    match get_groq_client groq_api_key with
    | .error e => (.error e, [.fileSystemTouched])
    | .ok _ => (api, [.fileSystemTouched, .networkCalled])
  else
    (.error (.fileNotFoundError ("Audio file not found: " ++ file_path)),
     [.fileSystemTouched])

/-- `transcribe_file` (live_interaction.py lines 283-296): string dispatch
over the backend; any backend other than "mlx" and "groq" raises
`ValueError` immediately, before touching the file or the network. -/
def transcribe_file (file_path : String) (backend : String) (file_exists : Bool)
    (groq_api_key : Option String) (inference : Except String String)
    (api : Except PyExc String) : Except PyExc String × List FileIOEvent :=
  if backend = "mlx" then
    transcribe_file_mlx file_path file_exists inference
  else if backend = "groq" then
    transcribe_file_groq file_path file_exists groq_api_key api
  else
    (.error (.valueError ("Backend '" ++ backend ++ "' not supported for file transcription.")),
     [])

/-! ## `src/audio_understanding.py`: MIME type detection -/

/-- The final path component (the part after the last `/`),
`pathlib.Path(file_path).name` on POSIX. -/
def pathName (p : String) : String :=
  ⟨(p.data.reverse.takeWhile (fun c => c ≠ '/')).reverse⟩

/-- `pathlib.Path(file_path).suffix`: the extension of the final component,
from the last dot, empty when the name has no dot, starts with a dot, or
ends with the dot. -/
def pathSuffix (p : String) : String :=
  let l := (pathName p).data
  if l.contains '.' then
    let tail := l.reverse.takeWhile (fun c => c ≠ '.')
    let i := l.length - 1 - tail.length
    if 0 < i ∧ i < l.length - 1 then ⟨l.drop i⟩ else ""
  else ""

/-- `AUDIO_MIME_TYPES` (audio_understanding.py lines 37-49), verbatim and
in source (insertion) order. -/
def AUDIO_MIME_TYPES : List (String × String) :=
  [(".mp3", "audio/mp3"),
   (".wav", "audio/wav"),
   (".aiff", "audio/aiff"),
   (".aif", "audio/aiff"),
   (".aac", "audio/aac"),
   (".ogg", "audio/ogg"),
   (".flac", "audio/flac"),
   (".m4a", "audio/m4a"),
   (".opus", "audio/opus"),
   (".weba", "audio/webm"),
   (".webm", "audio/webm")]

/-- The `ValueError` message of `get_audio_mime_type`:
`f"Unsupported audio format: '{ext}'. Supported formats: {', '.join(AUDIO_MIME_TYPES.keys())}"`. -/
def unsupported_format_msg (ext : String) : String :=
  "Unsupported audio format: '" ++ ext ++ "'. Supported formats: "
    ++ String.intercalate ", " (AUDIO_MIME_TYPES.map Prod.fst)

/-- `get_audio_mime_type`: lower-cased suffix looked up in the allow-list
first, then the system MIME guesser (`mimetypes.guess_type`, the oracle
`guess`) accepted only for `audio/*` results, otherwise a `ValueError`
naming the supported list. An empty guess is falsy in the source; it does
not start with `audio/`, so the embedding folds that check in. -/
def get_audio_mime_type (guess : String → Option String) (file_path : String) :
    Except PyExc String :=
  let ext := pyLower (pathSuffix file_path)
  match AUDIO_MIME_TYPES.lookup ext with
  | some m => .ok m
  | none =>
    match guess file_path with
    | some mime_type =>
      if mime_type.startsWith "audio/" then .ok mime_type
      else .error (.valueError (unsupported_format_msg ext))
    | none => .error (.valueError (unsupported_format_msg ext))

/-- The three live runners `run_live_transcription` can dispatch to. -/
inductive LiveRunner
  | mlx
  | groq
  | gemini
  deriving DecidableEq, Repr

/-- `run_live_transcription` (lines 541-576): backend dispatch; "gemini"
is accepted for live transcription. -/
def run_live_transcription_dispatch (backend : String) : Except PyExc LiveRunner :=
  if backend = "mlx" then .ok .mlx
  else if backend = "groq" then .ok .groq
  else if backend = "gemini" then .ok .gemini
  else .error (.valueError ("Unknown backend: " ++ backend ++ ". Use 'mlx', 'groq', or 'gemini'."))

/-! ## `src/live_interaction.py`: the gemini streaming pipeline
(`run_gemini_transcription_async`). The capture and send tasks share
`audio_queue = asyncio.Queue(maxsize=5)`; `await audio_queue.put(...)` on a
full queue suspends the capture task until a slot frees (asyncio semantics),
and `await audio_queue.get()` on an empty queue suspends the send task. -/

/-- `asyncio.Queue(maxsize=5)` at live_interaction.py line 422. -/
def audio_queue_maxsize : Nat := 5

/-- State of the capture/send pair: the pending audio messages (by chunk
id, oldest first), the messages already forwarded to the session, and the
id of the next chunk the microphone will produce. -/
structure GeminiPipeState where
  queue : List Nat
  sent : List Nat
  nextChunk : Nat
  deriving DecidableEq, Repr

/-- Interleaving steps of the streaming pipeline. `capture` models one turn
of `listen_audio`'s loop: it is enabled only when the bounded queue has a
free slot — a full queue suspends the awaiting `put`, it never drops the
chunk and never raises. `send` models one turn of `send_audio`: pop the
oldest message and forward it. -/
inductive GeminiPipeStep : GeminiPipeState → GeminiPipeState → Prop
  | capture (s : GeminiPipeState) (h : s.queue.length < audio_queue_maxsize) :
      GeminiPipeStep s ⟨s.queue ++ [s.nextChunk], s.sent, s.nextChunk + 1⟩
  | send (s : GeminiPipeState) (m : Nat) (q : List Nat) (h : s.queue = m :: q) :
      GeminiPipeStep s ⟨q, s.sent ++ [m], s.nextChunk⟩

/-- The pipeline starts with an empty queue. -/
def geminiPipeInit : GeminiPipeState := ⟨[], [], 0⟩

/-- States reachable by the streaming pipeline. -/
inductive GeminiPipeReachable : GeminiPipeState → Prop
  | init : GeminiPipeReachable geminiPipeInit
  | step {s t : GeminiPipeState} :
      GeminiPipeReachable s → GeminiPipeStep s t → GeminiPipeReachable t

/-! ## `src/audio_recorder.py` (`record_audio`) and the live
`record_chunk`: chunk-count arithmetic and WAV header parameters. -/

/-- Python `int()` on a rational: truncation toward zero. -/
def pyInt (q : ℚ) : ℤ :=
  if 0 ≤ q then ⌊q⌋ else ⌈q⌉

/-- `DEFAULT_CHUNK_SIZE = 1024` / `CHUNK_SIZE = 1024` frames per buffer. -/
def DEFAULT_CHUNK_SIZE : Nat := 1024

/-- `total_chunks = int(sample_rate / CHUNK_SIZE * duration_seconds)`,
shared verbatim by `record_audio` and `record_chunk`. -/
def total_chunks (sample_rate : Nat) (duration_seconds : ℚ) : ℤ :=
  pyInt ((sample_rate : ℚ) / (DEFAULT_CHUNK_SIZE : ℚ) * duration_seconds)

/-- The WAV header fields the writers set (`wave` module setters). -/
structure WavHeader where
  nchannels : Nat
  sampwidth : Nat
  framerate : Nat
  nframes : Nat
  deriving DecidableEq, Repr

/-- `record_audio(output_file, duration_seconds, sample_rate, channels)`:
captures `total_chunks` buffers of `DEFAULT_CHUNK_SIZE` frames each and
writes them under a header with the configured channel count, 2-byte
samples (`pya.get_sample_size(paInt16)`), and the configured rate. -/
def record_audio (sample_rate : Nat) (channels : Nat) (duration_seconds : ℚ) :
    WavHeader :=
  { nchannels := channels
    sampwidth := 2
    framerate := sample_rate
    nframes := (total_chunks sample_rate duration_seconds).toNat * DEFAULT_CHUNK_SIZE }

/-- `record_chunk(duration_seconds, sample_rate)` in live_interaction.py:
same chunk count formula, fixed `CHANNELS = 1` and 16-bit samples
(`wf.setsampwidth(2)`). -/
def record_chunk (duration_seconds : ℚ) (sample_rate : Nat) : WavHeader :=
  { nchannels := 1
    sampwidth := 2
    framerate := sample_rate
    nframes := (total_chunks sample_rate duration_seconds).toNat * DEFAULT_CHUNK_SIZE }

/-! ## Terminal-line model for the status renderer

A single terminal line under `print(..., end="")`: a carriage return moves
the cursor to column 0 without erasing, every other character overwrites
the cell under the cursor (extending the line when past its end) and
advances. This is the semantics the status-line redraws rely on. -/

structure TermLine where
  line : List Char
  pos : Nat
  deriving DecidableEq, Repr

/-- Write one character at a column, overwriting, padding with spaces when
the column is past the end of the line. -/
def writeAt (l : List Char) (p : Nat) (c : Char) : List Char :=
  if p < l.length then l.set p c
  else l ++ List.replicate (p - l.length) ' ' ++ [c]

/-- Process one character of terminal output. -/
def putc (t : TermLine) (c : Char) : TermLine :=
  if c = '\r' then ⟨t.line, 0⟩ else ⟨writeAt t.line t.pos c, t.pos + 1⟩

def putsList (t : TermLine) : List Char → TermLine
  | [] => t
  | c :: cs => putsList (putc t c) cs

/-- Print a string (no trailing newline) on the terminal line. -/
def putsT (t : TermLine) (s : String) : TermLine :=
  putsList t s.data

/-- A fresh, empty terminal line. -/
def term0 : TermLine := ⟨[], 0⟩

/-- Strings free of carriage returns (the displayed content strings). -/
def noCR (s : String) : Prop := '\r' ∉ s.data

instance (s : String) : Decidable (noCR s) :=
  inferInstanceAs (Decidable ('\r' ∉ s.data))

/-! ## Status-line strings emitted by the live loops -/

/-- `max_status_len = 50` in `run_mlx_transcription` (line 326) and
`run_groq_transcription` (line 381). -/
def max_status_len : Nat := 50

/-- `status = f"🔴 Recording ({chunk_duration}s)..."`, with the duration's
Python string form passed in (default chunk durations print as "3.0" and
"5.0"). -/
def recordingStatus (chunk_duration : String) : String :=
  "🔴 Recording (" ++ chunk_duration ++ "s)..."

/-- `print(f"\r{'🔄 Transcribing...':<{max_status_len}}", end="")`: a
carriage return, then the new content left-justified to width 50. -/
def transcribingRedraw : String :=
  "\r" ++ pyLJust "🔄 Transcribing..." max_status_len

/-- `f"\r{' ' * max_status_len}\r📝 {text}"` (the transcript line of the
chunked loops, printed with a newline afterwards). -/
def resultRedraw (text : String) : String :=
  "\r" ++ spaces max_status_len ++ "\r" ++ ("📝 " ++ text)

/-- `clear_str = "\r" + " " * last_line_length + "\r"` in
`receive_transcription`. -/
def gemini_clear_str (last_line_length : Nat) : String :=
  "\r" ++ spaces last_line_length ++ "\r"

/-- `display_str = f"📝 {current_text}"`; the code then stores
`last_line_length = len(display_str)` for the next redraw. -/
def gemini_display_str (current_text : String) : String :=
  "📝 " ++ current_text

/-- The partial-transcript redraw `print(f"{clear_str}{display_str}",
end="")` of `receive_transcription`. -/
def gemini_redraw (last_line_length : Nat) (current_text : String) : String :=
  gemini_clear_str last_line_length ++ gemini_display_str current_text

/-- Modelled from the spec: `render(prevLen, content)` "always emits a
carriage-return, a blank-fill of prevLen spaces, a second carriage-return,
then the new content". Compared against the redraw strings the source
actually emits. -/
def specRender (prevLen : Nat) (content : String) : String :=
  "\r" ++ spaces prevLen ++ "\r" ++ content

/-! ## Live loop event traces -/

/-- Observable events of one live-transcription session. -/
inductive LiveEvent
  | statusShown (s : String)
  | inputDeviceOpened
  | chunkRecorded
  | transcriptShown (s : String)
  | silenceShown
  | errorShownInline (msg : String)
  | configErrorRaised (msg : String)
  deriving DecidableEq, Repr

def isConfigErrorEvent : LiveEvent → Bool
  | .configErrorRaised _ => true
  | _ => false

def isChunkRecordedEvent : LiveEvent → Bool
  | .chunkRecorded => true
  | _ => false

/-- One iteration of the `run_groq_transcription` while-loop: show the
recording status, record a chunk (`record_chunk` opens the default input
device), show the transcribing status, then run `transcribe_audio_bytes`
inside `try/except Exception`, rendering the stripped transcript, the
silence marker, or the caught error inline. -/
def run_groq_iteration (chunk_duration : String) (groq_api_key : Option String)
    (api : Except PyExc String) : List LiveEvent :=
  [.statusShown (recordingStatus chunk_duration), .inputDeviceOpened, .chunkRecorded,
   .statusShown "🔄 Transcribing..."] ++
  match transcribe_audio_bytes groq_api_key api with
  | .ok text =>
    if pyStrip text ≠ "" then [.transcriptShown (pyStrip text)] else [.silenceShown]
  | .error e => [.errorShownInline (pyExcMsg e)]

/-- The `run_groq_transcription` loop: `fuel` iterations of `while True`
before the operator interrupt; the per-window network outcome of iteration
`i` is `api i`. -/
def run_groq_transcription (chunk_duration : String) (groq_api_key : Option String)
    (api : Nat → Except PyExc String) : Nat → List LiveEvent
  | 0 => []
  | fuel + 1 =>
    run_groq_iteration chunk_duration groq_api_key (api 0)
      ++ run_groq_transcription chunk_duration groq_api_key (fun i => api (i + 1)) fuel

/-- One iteration of the `run_mlx_transcription` while-loop, with the MLX
inference outcome passed through `transcribe_audio_bytes_mlx`. -/
def run_mlx_iteration (chunk_duration : String)
    (inference : Except String String) : List LiveEvent :=
  [.statusShown (recordingStatus chunk_duration), .inputDeviceOpened, .chunkRecorded,
   .statusShown "🔄 Transcribing..."] ++
  match (transcribe_audio_bytes_mlx inference).1 with
  | .ok text =>
    if pyStrip text ≠ "" then [.transcriptShown (pyStrip text)] else [.silenceShown]
  | .error e => [.errorShownInline e]

/-- The `run_mlx_transcription` loop, `fuel` iterations before the
operator interrupt. -/
def run_mlx_transcription (chunk_duration : String)
    (inference : Nat → Except String String) : Nat → List LiveEvent
  | 0 => []
  | fuel + 1 =>
    run_mlx_iteration chunk_duration (inference 0)
      ++ run_mlx_transcription chunk_duration (fun i => inference (i + 1)) fuel

/-- `run_gemini_transcription_async` up to task start-up:
`pyaudio.PyAudio()` is initialized (no input device is opened by that) and
the bounded queue created, then `client = get_client()` runs at line 499,
BEFORE `client.aio.live.connect` and before `listen_audio` (the only
code that opens the input device) is ever scheduled. A missing
`GEMINI_API_KEY` therefore raises `ConfigurationError` with no device
event; with a key the session starts and `listen_audio` opens the device
(the in-session pipeline is modelled by `GeminiPipeStep`). -/
def run_gemini_transcription_async (gemini_api_key : Option String) :
    List LiveEvent × Option PyExc :=
  match get_api_key gemini_api_key with
  | .error e => ([.configErrorRaised (pyExcMsg e)], some e)
  | .ok _ => ([.inputDeviceOpened], none)

end Kopichat

namespace Kopichat

/-! ## Claim C4 -/

/-- C4: for every MLX inference output whose stripped, lower-cased form is
one of the fixed filler phrases, the live byte-transcription path returns
the empty string; the match is case-insensitive because the comparison is
made on the lower-cased text. -/
theorem C4_mlx_filler_filter (raw : String)
    (h : hallucination_phrases.contains (pyLower (pyStrip raw)) = true) :
    (transcribe_audio_bytes_mlx (.ok raw)).1 = .ok "" := by
  simp only [transcribe_audio_bytes_mlx, h, if_true]

/-- Witness for C4 at the concrete model output `" Thank You "`. -/
theorem C4_mlx_filler_filter_witness :
    (transcribe_audio_bytes_mlx (.ok " Thank You ")).1 = .ok "" :=
  C4_mlx_filler_filter " Thank You " (by decide)

/-! ## Claim C8 -/

/-- C8: the temp file created by the local-model byte-transcription path is
deleted before the call returns, on the success path and on the failure
path alike (the unlink event always follows the create event, the file does
not exist afterwards, and inference failures still propagate as errors). -/
theorem C8_temp_file_always_deleted (inference : Except String String) :
    (transcribe_audio_bytes_mlx inference).2 = [.created, .unlinked] ∧
    tempFileExistsAfter (transcribe_audio_bytes_mlx inference).2 = false ∧
    (∀ e, inference = .error e → (transcribe_audio_bytes_mlx inference).1 = .error e) := by
  refine ⟨rfl, rfl, ?_⟩
  intro e he
  subst he
  rfl

/-- Witness for C8 at a concrete failing inference. -/
theorem C8_temp_file_always_deleted_witness :
    (transcribe_audio_bytes_mlx (.error "mlx crashed")).2 = [.created, .unlinked] ∧
    tempFileExistsAfter (transcribe_audio_bytes_mlx (.error "mlx crashed")).2 = false ∧
    (transcribe_audio_bytes_mlx (.error "mlx crashed")).1 = .error "mlx crashed" := by
  obtain ⟨h1, h2, h3⟩ := C8_temp_file_always_deleted (.error "mlx crashed")
  exact ⟨h1, h2, h3 "mlx crashed" rfl⟩

/-! ## Claim C9 -/

/-- C9: the filler-phrase filter applies only to the live byte path; file
transcription via `transcribe_file_mlx` returns the stripped model output
unchanged (a nonempty string) even when it equals a filler phrase, while
the byte path forces the same output to the empty string. -/
theorem C9_file_path_no_filler_filter (file_path raw : String)
    (h : hallucination_phrases.contains (pyLower (pyStrip raw)) = true) :
    (transcribe_file_mlx file_path true (.ok raw)).1 = .ok (pyStrip raw) ∧
    pyStrip raw ≠ "" ∧
    (transcribe_audio_bytes_mlx (.ok raw)).1 = .ok "" := by
  refine ⟨rfl, ?_, ?_⟩
  · intro hempty
    rw [hempty] at h
    simp only [pyLower] at h
    exact absurd h (by decide)
  · simp only [transcribe_audio_bytes_mlx, h, if_true]

/-- Witness for C9 at the concrete model output `" Thank you "`. -/
theorem C9_file_path_no_filler_filter_witness :
    (transcribe_file_mlx "clip.wav" true (.ok " Thank you ")).1 = .ok "Thank you" ∧
    ("Thank you" : String) ≠ "" ∧
    (transcribe_audio_bytes_mlx (.ok " Thank you ")).1 = .ok "" := by
  have h := C9_file_path_no_filler_filter "clip.wav" " Thank you " (by decide)
  have hs : pyStrip " Thank you " = "Thank you" := by decide
  rw [hs] at h
  exact h

/-! ## Claim C2 -/

/-- On the concrete allow-list, lookup returns each documented entry. -/
theorem audio_lookup_complete :
    ∀ em ∈ AUDIO_MIME_TYPES, AUDIO_MIME_TYPES.lookup em.1 = some em.2 := by
  decide

/-- Association lookup misses every key absent from the key list. -/
theorem lookup_eq_none_of_not_mem (a : String) (l : List (String × String))
    (h : a ∉ l.map Prod.fst) : l.lookup a = none := by
  induction l with
  | nil => rfl
  | cons hd tl ih =>
    simp only [List.map_cons, List.mem_cons, not_or] at h
    have hne : (a == hd.1) = false := beq_eq_false_iff_ne.mpr h.1
    cases hd with
    | mk k v =>
      simp only [List.lookup]
      simp only at hne
      rw [hne]
      exact ih h.2

/-- C2: every file path whose lower-cased extension is in the allow-list
maps to the documented MIME type; every path whose extension is absent and
for which the system guesser yields no `audio/*` type fails with a
`ValueError` whose message names the supported extension list (spelled out
in the third conjunct). -/
theorem C2_mime_detection (file_path : String) (guess : String → Option String) :
    (∀ em ∈ AUDIO_MIME_TYPES, pyLower (pathSuffix file_path) = em.1 →
       get_audio_mime_type guess file_path = .ok em.2) ∧
    (pyLower (pathSuffix file_path) ∉ AUDIO_MIME_TYPES.map Prod.fst →
     (∀ m, guess file_path = some m → m.startsWith "audio/" = false) →
     get_audio_mime_type guess file_path
       = .error (.valueError (unsupported_format_msg (pyLower (pathSuffix file_path))))) ∧
    String.intercalate ", " (AUDIO_MIME_TYPES.map Prod.fst)
      = ".mp3, .wav, .aiff, .aif, .aac, .ogg, .flac, .m4a, .opus, .weba, .webm" := by
  refine ⟨?_, ?_, by decide⟩
  · intro em hem hext
    have hl := audio_lookup_complete em hem
    simp only [get_audio_mime_type, hext, hl]
  · intro hnot hguess
    have hl := lookup_eq_none_of_not_mem _ _ hnot
    simp only [get_audio_mime_type, hl]
    cases hg : guess file_path with
    | none => rfl
    | some m =>
      have := hguess m hg
      simp only [this]
      rfl

/-- Witness for C2: a supported extension (case-insensitively) and an
unsupported one, both with a system guesser that knows nothing. -/
theorem C2_mime_detection_witness :
    get_audio_mime_type (fun _ => none) "Song.MP3" = .ok "audio/mp3" ∧
    get_audio_mime_type (fun _ => none) "notes.txt"
      = .error (.valueError (unsupported_format_msg ".txt")) := by
  constructor
  · exact (C2_mime_detection "Song.MP3" (fun _ => none)).1
      (".mp3", "audio/mp3") (by decide) (by decide)
  · have h := (C2_mime_detection "notes.txt" (fun _ => none)).2.1
      (by decide) (fun m hm => by cases hm)
    have hext : pyLower (pathSuffix "notes.txt") = ".txt" := by decide
    rw [hext] at h
    exact h

/-! ## Terminal-line lemmas -/

theorem putsList_append (t : TermLine) (a b : List Char) :
    putsList t (a ++ b) = putsList (putsList t a) b := by
  induction a generalizing t with
  | nil => rfl
  | cons c cs ih => exact ih (putc t c)

theorem putsT_append (t : TermLine) (a b : String) :
    putsT t (a ++ b) = putsT (putsT t a) b := by
  show putsList t (a ++ b).data = _
  rw [String.data_append]
  exact putsList_append t a.data b.data

theorem putsT_cr (t : TermLine) : putsT t "\r" = ⟨t.line, 0⟩ := by
  show putsList t ['\r'] = _
  simp [putsList, putc]

theorem writeAt_eq (l : List Char) (p : Nat) (c : Char) (h : p ≤ l.length) :
    writeAt l p c = l.take p ++ c :: l.drop (p + 1) := by
  rcases lt_or_eq_of_le h with hlt | heq
  · rw [writeAt, if_pos hlt]
    exact List.set_eq_take_cons_drop c hlt
  · rw [writeAt, if_neg (by omega)]
    have h0 : p - l.length = 0 := by omega
    rw [h0, List.replicate_zero, List.append_nil,
      List.take_of_length_le (le_of_eq heq.symm),
      List.drop_eq_nil_of_le (by omega : l.length ≤ p + 1)]

/-- Writing a carriage-return-free character sequence `cs` from column `p`
over a line that does not extend past the written region replaces
everything from column `p` on with `cs`. -/
theorem overwrite_from (cs : List Char) (l : List Char) (p : Nat)
    (hcs : ∀ c ∈ cs, c ≠ '\r') (hp : p ≤ l.length) (hl : l.length ≤ p + cs.length) :
    putsList ⟨l, p⟩ cs = ⟨l.take p ++ cs, p + cs.length⟩ := by
  induction cs generalizing l p with
  | nil =>
    simp only [putsList, List.append_nil, List.length_nil, Nat.add_zero]
    have : p = l.length := le_antisymm hp (by simpa using hl)
    rw [List.take_of_length_le (le_of_eq this.symm)]
  | cons c cs ih =>
    have hc : c ≠ '\r' := hcs c (List.mem_cons_self c cs)
    have hw := writeAt_eq l p c hp
    have hwlen : (writeAt l p c).length = max l.length (p + 1) := by
      rw [hw]
      simp only [List.length_append, List.length_cons, List.length_take,
        List.length_drop]
      omega
    have hstep : putsList ⟨l, p⟩ (c :: cs) = putsList ⟨writeAt l p c, p + 1⟩ cs := by
      show putsList (putc ⟨l, p⟩ c) cs = _
      rw [putc, if_neg hc]
    rw [hstep, ih (writeAt l p c) (p + 1)
      (fun x hx => hcs x (List.mem_cons_of_mem c hx))
      (by omega)
      (by simp only [List.length_cons] at hl; omega)]
    have htake : (writeAt l p c).take (p + 1) = l.take p ++ [c] := by
      rw [hw, List.take_append_eq_append_take,
        List.take_of_length_le (by simp only [List.length_take]; omega)]
      congr 1
      have h1 : p + 1 - (l.take p).length = 1 := by
        simp only [List.length_take]
        omega
      rw [h1]
      rfl
    rw [htake]
    congr 1
    · simp [List.append_assoc]
    · simp only [List.length_cons]
      omega

/-- Rendering carriage-return-free text on a fresh line leaves exactly
that text with the cursor at its end. -/
theorem putsT_fresh (s : String) (hs : noCR s) :
    putsT term0 s = ⟨s.data, s.length⟩ := by
  show putsList ⟨[], 0⟩ s.data = _
  rw [overwrite_from s.data [] 0 (fun c hc hr => hs (hr ▸ hc))
    (Nat.zero_le _) (Nat.zero_le _)]
  show (⟨List.take 0 [] ++ s.data, 0 + s.data.length⟩ : TermLine) = _
  rw [List.take_nil, List.nil_append, Nat.zero_add]
  rfl

/-- Core erasure fact: a redraw of the spec's shape (CR, `n` spaces, CR,
then the new content) after a previously displayed line of at most `n`
characters produces the same terminal state as the redraw alone — the
previous line leaves no residue. -/
theorem erase_spec_render (A rest : String) (n : Nat) (hA : noCR A)
    (hlen : A.length ≤ n) :
    putsT (putsT term0 A) (specRender n rest) = putsT term0 (specRender n rest) := by
  have hsp : ∀ c ∈ List.replicate n ' ', c ≠ '\r' := by
    intro c hc
    rw [List.eq_of_mem_replicate hc]
    decide
  have hmid : putsT (putsT (putsT term0 A) "\r") (spaces n)
      = putsT (putsT term0 "\r") (spaces n) := by
    rw [putsT_fresh A hA, putsT_cr, putsT_cr]
    show putsList ⟨A.data, 0⟩ (List.replicate n ' ')
      = putsList ⟨[], 0⟩ (List.replicate n ' ')
    rw [overwrite_from (List.replicate n ' ') A.data 0 hsp (Nat.zero_le _)
          (by rw [List.length_replicate, Nat.zero_add]; exact hlen),
        overwrite_from (List.replicate n ' ') [] 0 hsp (Nat.zero_le _)
          (Nat.zero_le _)]
    rfl
  show putsT (putsT term0 A) ((("\r" ++ spaces n) ++ "\r") ++ rest)
    = putsT term0 ((("\r" ++ spaces n) ++ "\r") ++ rest)
  simp only [putsT_append]
  rw [hmid]

/-- Core erasure fact for the transcribing-status redraw shape (CR, then
content at least as wide as the previous line): no residue either. -/
theorem erase_wide_overwrite (A content : String) (hA : noCR A)
    (hc : noCR content) (hlen : A.length ≤ content.length) :
    putsT (putsT term0 A) ("\r" ++ content) = putsT term0 ("\r" ++ content) := by
  simp only [putsT_append]
  rw [putsT_fresh A hA, putsT_cr, putsT_cr]
  show putsList ⟨A.data, 0⟩ content.data = putsList ⟨[], 0⟩ content.data
  rw [overwrite_from content.data A.data 0 (fun c hcm hr => hc (hr ▸ hcm))
        (Nat.zero_le _)
        (by rw [Nat.zero_add]; exact hlen),
      overwrite_from content.data [] 0 (fun c hcm hr => hc (hr ▸ hcm))
        (Nat.zero_le _) (Nat.zero_le _)]
  rfl

/-! ## Claim C1 -/

/-- C1 counterexample: in `run_mlx_transcription` with the default 3.0 s
chunk, the redraw from the recording status (21 characters) to the
transcribing status is a carriage return followed by the new content
left-justified to the fixed width 50 — it is not a carriage return, a
21-space blank-fill, a second carriage return, then the content (under
either reading of "the new content"), and the fixed 50-character budget
the loop uses differs from the previous displayed string's length. -/
theorem C1_fixed_fill_counterexample :
    transcribingRedraw
      ≠ specRender (recordingStatus "3.0").length "🔄 Transcribing..." ∧
    transcribingRedraw
      ≠ specRender (recordingStatus "3.0").length
          (pyLJust "🔄 Transcribing..." max_status_len) ∧
    (recordingStatus "3.0").length = 21 ∧
    max_status_len ≠ (recordingStatus "3.0").length := by
  refine ⟨by decide, by decide, by decide, by decide⟩

/-- C1 amended: only the streaming (gemini) receive path redraws with a
blank-fill of exactly the previous displayed string's length — its redraw
is literally the spec's render pattern at the tracked previous length, so
it fully erases any previous line. The chunked loops instead use a fixed
50-column budget: the result line is the spec pattern at the constant
`max_status_len = 50`, and the transcribing status is a carriage return
plus content left-justified to 50 columns; both erase the previous status
line provided it has at most 50 characters. -/
theorem C1_amended_status_renderer :
    (∀ prevText newText : String,
      gemini_redraw (gemini_display_str prevText).length newText
        = specRender (gemini_display_str prevText).length
            (gemini_display_str newText)) ∧
    (∀ prev newText : String, noCR prev →
      putsT (putsT term0 prev) (gemini_redraw prev.length newText)
        = putsT term0 (gemini_redraw prev.length newText)) ∧
    (∀ text : String, resultRedraw text = specRender max_status_len ("📝 " ++ text)) ∧
    (∀ prev text : String, noCR prev → prev.length ≤ max_status_len →
      putsT (putsT term0 prev) (resultRedraw text)
        = putsT term0 (resultRedraw text)) ∧
    (∀ prev : String, noCR prev → prev.length ≤ max_status_len →
      putsT (putsT term0 prev) transcribingRedraw
        = putsT term0 transcribingRedraw) := by
  refine ⟨fun _ _ => rfl, ?_, fun _ => rfl, ?_, ?_⟩
  · intro prev newText hprev
    have h : gemini_redraw prev.length newText
        = specRender prev.length (gemini_display_str newText) := rfl
    rw [h]
    exact erase_spec_render prev (gemini_display_str newText) prev.length hprev le_rfl
  · intro prev text hprev hlen
    have h : resultRedraw text = specRender max_status_len ("📝 " ++ text) := rfl
    rw [h]
    exact erase_spec_render prev ("📝 " ++ text) max_status_len hprev hlen
  · intro prev hprev hlen
    have h : transcribingRedraw
        = "\r" ++ pyLJust "🔄 Transcribing..." max_status_len := rfl
    rw [h]
    exact erase_wide_overwrite prev (pyLJust "🔄 Transcribing..." max_status_len)
      hprev (by decide) (le_trans hlen (by decide))

/-- Witness for C1 (amended) at concrete lines: the previous gemini
display `📝 hello` is fully erased by the redraw carrying the tracked
length, and a 21-character recording status is fully erased by both
fixed-width chunked redraws. -/
theorem C1_amended_status_renderer_witness :
    putsT (putsT term0 (gemini_display_str "hello"))
        (gemini_redraw (gemini_display_str "hello").length "hello there")
      = putsT term0 (gemini_redraw (gemini_display_str "hello").length "hello there") ∧
    putsT (putsT term0 (recordingStatus "3.0")) (resultRedraw "ok lah")
      = putsT term0 (resultRedraw "ok lah") ∧
    putsT (putsT term0 (recordingStatus "3.0")) transcribingRedraw
      = putsT term0 transcribingRedraw := by
  refine ⟨?_, ?_, ?_⟩
  · exact C1_amended_status_renderer.2.1 (gemini_display_str "hello") "hello there"
      (by decide)
  · exact C1_amended_status_renderer.2.2.2.1 (recordingStatus "3.0") "ok lah"
      (by decide) (by decide)
  · exact C1_amended_status_renderer.2.2.2.2 (recordingStatus "3.0")
      (by decide) (by decide)

/-! ## Live-loop counting lemmas (shared by C3 and C5) -/

theorem groq_iteration_no_config_event (cd : String) (key : Option String)
    (api : Except PyExc String) :
    (run_groq_iteration cd key api).countP isConfigErrorEvent = 0 := by
  rw [run_groq_iteration]
  cases transcribe_audio_bytes key api with
  | ok t =>
    by_cases h : pyStrip t ≠ ""
    · simp [h, List.countP_append, List.countP_cons, isConfigErrorEvent]
    · simp [h, List.countP_append, List.countP_cons, isConfigErrorEvent]
  | error e =>
    simp [List.countP_append, List.countP_cons, isConfigErrorEvent]

theorem groq_loop_no_config_event (cd : String) (key : Option String)
    (api : Nat → Except PyExc String) (fuel : Nat) :
    (run_groq_transcription cd key api fuel).countP isConfigErrorEvent = 0 := by
  induction fuel generalizing api with
  | zero => rfl
  | succ n ih =>
    rw [run_groq_transcription, List.countP_append,
      groq_iteration_no_config_event, ih]

theorem groq_iteration_one_chunk (cd : String) (key : Option String)
    (api : Except PyExc String) :
    (run_groq_iteration cd key api).countP isChunkRecordedEvent = 1 := by
  rw [run_groq_iteration]
  cases transcribe_audio_bytes key api with
  | ok t =>
    by_cases h : pyStrip t ≠ ""
    · simp [h, List.countP_append, List.countP_cons, isChunkRecordedEvent]
    · simp [h, List.countP_append, List.countP_cons, isChunkRecordedEvent]
  | error e =>
    simp [List.countP_append, List.countP_cons, isChunkRecordedEvent]

theorem mlx_iteration_one_chunk (cd : String) (inference : Except String String) :
    (run_mlx_iteration cd inference).countP isChunkRecordedEvent = 1 := by
  rw [run_mlx_iteration]
  cases (transcribe_audio_bytes_mlx inference).1 with
  | ok t =>
    by_cases h : pyStrip t ≠ ""
    · simp [h, List.countP_append, List.countP_cons, isChunkRecordedEvent]
    · simp [h, List.countP_append, List.countP_cons, isChunkRecordedEvent]
  | error e =>
    simp [List.countP_append, List.countP_cons, isChunkRecordedEvent]

/-! ## Claim C3 -/

/-- C3 counterexample: for the groq cloud backend with `GROQ_API_KEY`
unset, a single live iteration opens the audio input device (and records a
chunk) while never raising a `ConfigurationError` — the missing credential
instead surfaces as the `TranscriptionError` message rendered inline. -/
theorem C3_groq_counterexample :
    (run_groq_transcription "5.0" none (fun _ => .ok "hello") 1).contains
      .inputDeviceOpened = true ∧
    (run_groq_transcription "5.0" none (fun _ => .ok "hello") 1).countP
      isConfigErrorEvent = 0 ∧
    (run_groq_transcription "5.0" none (fun _ => .ok "hello") 1).contains
      (.errorShownInline GROQ_KEY_ERROR_MSG) = true := by
  set_option maxRecDepth 10000 in refine ⟨by decide, by decide, by decide⟩

/-- C3 amended: only the gemini backend checks its credential before the
audio input device is opened — with `GEMINI_API_KEY` unset (or empty) the
session raises `ConfigurationError` and no device event occurs. The groq
backend opens the device and records first; its missing credential becomes
a `TranscriptionError` from `transcribe_audio_bytes`, caught inside the
loop (which therefore never raises a `ConfigurationError` at all). -/
theorem C3_amended_credential_check :
    (∀ key : Option String, (key = none ∨ key = some "") →
      run_gemini_transcription_async key
        = ([.configErrorRaised GEMINI_KEY_ERROR_MSG],
           some (.configurationError GEMINI_KEY_ERROR_MSG)) ∧
      LiveEvent.inputDeviceOpened ∉ (run_gemini_transcription_async key).1) ∧
    (∀ (cd : String) (api : Nat → Except PyExc String) (fuel : Nat),
      LiveEvent.inputDeviceOpened ∈ run_groq_transcription cd none api (fuel + 1)) ∧
    (∀ api : Except PyExc String,
      transcribe_audio_bytes none api
        = .error (.transcriptionError GROQ_KEY_ERROR_MSG)) ∧
    (∀ (cd : String) (key : Option String) (api : Nat → Except PyExc String)
       (fuel : Nat),
      (run_groq_transcription cd key api fuel).countP isConfigErrorEvent = 0) := by
  refine ⟨?_, ?_, fun _ => rfl, fun cd key api fuel => groq_loop_no_config_event cd key api fuel⟩
  · intro key hkey
    rcases hkey with h | h <;> subst h <;> exact ⟨rfl, by decide⟩
  · intro cd api fuel
    rw [run_groq_transcription, run_groq_iteration]
    simp [List.mem_append]

/-- Witness for C3 (amended) at `GEMINI_API_KEY` unset and a concrete
one-iteration groq session. -/
theorem C3_amended_credential_check_witness :
    (run_gemini_transcription_async none
        = ([.configErrorRaised GEMINI_KEY_ERROR_MSG],
           some (.configurationError GEMINI_KEY_ERROR_MSG)) ∧
      LiveEvent.inputDeviceOpened ∉ (run_gemini_transcription_async none).1) ∧
    LiveEvent.inputDeviceOpened ∈ run_groq_transcription "5.0" none (fun _ => .ok "") 1 ∧
    transcribe_audio_bytes none (.ok "")
      = .error (.transcriptionError GROQ_KEY_ERROR_MSG) ∧
    (run_groq_transcription "5.0" none (fun _ => .ok "") 1).countP
      isConfigErrorEvent = 0 := by
  obtain ⟨h1, h2, h3, h4⟩ := C3_amended_credential_check
  exact ⟨h1 none (Or.inl rfl), h2 "5.0" (fun _ => .ok "") 0,
    h3 (.ok ""), h4 "5.0" none (fun _ => .ok "") 1⟩

/-! ## Claim C5 -/

/-- C5: in the chunked live loops every per-window transcription failure
is caught inside its own iteration and rendered as an inline error event,
and for every oracle of per-window outcomes — including all-failing ones —
the loop still completes exactly `fuel` capture cycles: no transcription
failure terminates the session. -/
theorem C5_loop_error_containment (cd : String) (key : Option String)
    (api : Nat → Except PyExc String) (inference : Nat → Except String String)
    (fuel : Nat) (r : Except PyExc String) (inf : Except String String)
    (e : PyExc) (m : String) :
    ((run_groq_transcription cd key api fuel).countP isChunkRecordedEvent = fuel) ∧
    ((run_mlx_transcription cd inference fuel).countP isChunkRecordedEvent = fuel) ∧
    (transcribe_audio_bytes key r = .error e →
      LiveEvent.errorShownInline (pyExcMsg e) ∈ run_groq_iteration cd key r) ∧
    ((transcribe_audio_bytes_mlx inf).1 = .error m →
      LiveEvent.errorShownInline m ∈ run_mlx_iteration cd inf) := by
  refine ⟨?_, ?_, ?_, ?_⟩
  · induction fuel generalizing api with
    | zero => rfl
    | succ n ih =>
      rw [run_groq_transcription, List.countP_append, groq_iteration_one_chunk, ih]
      omega
  · induction fuel generalizing inference with
    | zero => rfl
    | succ n ih =>
      rw [run_mlx_transcription, List.countP_append, mlx_iteration_one_chunk, ih]
      omega
  · intro herr
    rw [run_groq_iteration, herr]
    simp [List.mem_append]
  · intro herr
    rw [run_mlx_iteration, herr]
    simp [List.mem_append]

/-- Witness for C5: two iterations of each loop under an oracle whose
windows all fail, and concrete failing calls rendered inline. -/
theorem C5_loop_error_containment_witness :
    ((run_groq_transcription "5.0" none (fun _ => .ok "hi") 2).countP
      isChunkRecordedEvent = 2) ∧
    ((run_mlx_transcription "3.0" (fun _ => .error "boom") 2).countP
      isChunkRecordedEvent = 2) ∧
    LiveEvent.errorShownInline GROQ_KEY_ERROR_MSG
      ∈ run_groq_iteration "5.0" none (.ok "hi") ∧
    LiveEvent.errorShownInline "boom" ∈ run_mlx_iteration "3.0" (.error "boom") := by
  obtain ⟨h1, _, h3, _⟩ := C5_loop_error_containment "5.0" none (fun _ => .ok "hi")
    (fun _ => .error "boom") 2 (.ok "hi") (.error "boom")
    (.transcriptionError GROQ_KEY_ERROR_MSG) "boom"
  obtain ⟨_, h2, _, h4⟩ := C5_loop_error_containment "3.0" none (fun _ => .ok "hi")
    (fun _ => .error "boom") 2 (.ok "hi") (.error "boom")
    (.transcriptionError GROQ_KEY_ERROR_MSG) "boom"
  exact ⟨h1, h2, h3 rfl, h4 rfl⟩

/-! ## Claim C6 -/

/-- C6: every reachable state of the streaming pipeline holds at most
`audio_queue_maxsize = 5` pending audio messages, and from a full queue the
capture task cannot step — the only enabled transition is a send, which
keeps the capture counter unchanged and frees one slot — so a full queue
blocks the capture task instead of dropping the chunk or raising. -/
theorem C6_bounded_queue_invariant :
    (∀ s, GeminiPipeReachable s → s.queue.length ≤ audio_queue_maxsize) ∧
    (∀ s t, s.queue.length = audio_queue_maxsize → GeminiPipeStep s t →
      t.nextChunk = s.nextChunk ∧ t.queue.length + 1 = s.queue.length) := by
  constructor
  · intro s hs
    induction hs with
    | init => decide
    | step hr hstep ih =>
      cases hstep with
      | capture h =>
        simp only [List.length_append, List.length_cons, List.length_nil]
        omega
      | send m q h =>
        rw [h, List.length_cons] at ih
        simpa using Nat.le_of_succ_le ih
  · intro s t hfull hstep
    cases hstep with
    | capture h =>
      rw [hfull] at h
      exact absurd h (lt_irrefl _)
    | send m q h =>
      exact ⟨rfl, by rw [h, List.length_cons]⟩

/-- Witness for C6: a concrete reachable state (two captures, one send)
satisfies the bound, and a send from a concrete full queue keeps the
capture counter unchanged while freeing a slot. -/
theorem C6_bounded_queue_invariant_witness :
    (⟨[1], [0], 2⟩ : GeminiPipeState).queue.length ≤ audio_queue_maxsize ∧
    ((⟨[1, 2, 3, 4], [0], 5⟩ : GeminiPipeState).nextChunk
        = (⟨[0, 1, 2, 3, 4], [], 5⟩ : GeminiPipeState).nextChunk ∧
      (⟨[1, 2, 3, 4], [0], 5⟩ : GeminiPipeState).queue.length + 1
        = (⟨[0, 1, 2, 3, 4], [], 5⟩ : GeminiPipeState).queue.length) := by
  constructor
  · apply C6_bounded_queue_invariant.1
    have h0 := GeminiPipeReachable.init
    have h1 := GeminiPipeReachable.step h0
      (GeminiPipeStep.capture geminiPipeInit (by decide))
    have h2 := GeminiPipeReachable.step h1
      (GeminiPipeStep.capture _ (by decide))
    have h3 := GeminiPipeReachable.step h2
      (GeminiPipeStep.send _ 0 [1] rfl)
    exact h3
  · exact C6_bounded_queue_invariant.2 ⟨[0, 1, 2, 3, 4], [], 5⟩ _ (by decide)
      (GeminiPipeStep.send _ 0 [1, 2, 3, 4] rfl)

/-! ## Claim C7 -/

/-- C7: `record_audio` at rate `R` for a nonnegative duration `D` writes a
WAV whose header carries the configured channel count (1), 16-bit samples
and rate `R`, captures `int(R / 1024 * D)` chunks of 1024 frames, and its
frame count is within one chunk (1024 frames) below `R × D`;
`record_chunk` performs the identical capture arithmetic. -/
theorem C7_record_frame_count (R : Nat) (D : ℚ) (hD : 0 ≤ D) :
    (record_audio R 1 D).nchannels = 1 ∧
    (record_audio R 1 D).sampwidth = 2 ∧
    (record_audio R 1 D).framerate = R ∧
    total_chunks R D = ⌊(R : ℚ) / 1024 * D⌋ ∧
    ((record_audio R 1 D).nframes : ℚ) ≤ (R : ℚ) * D ∧
    (R : ℚ) * D - ((record_audio R 1 D).nframes : ℚ) ≤ 1024 ∧
    record_chunk D R = record_audio R 1 D := by
  have hcast : ((DEFAULT_CHUNK_SIZE : ℕ) : ℚ) = 1024 := by
    norm_num [DEFAULT_CHUNK_SIZE]
  set q : ℚ := (R : ℚ) / ((DEFAULT_CHUNK_SIZE : ℕ) : ℚ) * D with hqdef
  have hx0 : 0 ≤ q := by
    apply mul_nonneg (div_nonneg (Nat.cast_nonneg R) _) hD
    rw [hcast]
    norm_num
  have htc : total_chunks R D = ⌊q⌋ := by
    simp only [total_chunks, pyInt, hqdef, if_pos hx0]
  have hfl0 : (0 : ℤ) ≤ ⌊q⌋ := Int.floor_nonneg.mpr hx0
  have htn : ((⌊q⌋.toNat : ℕ) : ℚ) = (⌊q⌋ : ℚ) := by
    exact_mod_cast Int.toNat_of_nonneg hfl0
  have hnf : ((record_audio R 1 D).nframes : ℚ) = (⌊q⌋ : ℚ) * 1024 := by
    simp only [record_audio, htc]
    rw [Nat.cast_mul, htn, hcast]
  have hq1024 : q * 1024 = (R : ℚ) * D := by
    rw [hqdef, hcast]
    field_simp
  refine ⟨rfl, rfl, rfl, ?_, ?_, ?_, rfl⟩
  · rw [htc, hqdef, hcast]
  · rw [hnf]
    have hfle : ((⌊q⌋ : ℤ) : ℚ) ≤ q := Int.floor_le q
    nlinarith [hfle, hq1024]
  · rw [hnf]
    have hlt : q < ((⌊q⌋ : ℤ) : ℚ) + 1 := Int.lt_floor_add_one q
    nlinarith [hlt, hq1024]

/-- Witness for C7: the spec scenario `record("x.wav", 5.0)` at 16000 Hz
mono: header 16000 Hz / 1 channel / 16-bit, and the payload of 79872
frames is within one 1024-frame chunk of 5.0 s × 16000 Hz. -/
theorem C7_record_frame_count_witness :
    ((record_audio 16000 1 5).nchannels = 1 ∧
      (record_audio 16000 1 5).sampwidth = 2 ∧
      (record_audio 16000 1 5).framerate = 16000 ∧
      total_chunks 16000 5 = ⌊(16000 : ℚ) / 1024 * 5⌋ ∧
      ((record_audio 16000 1 5).nframes : ℚ) ≤ (16000 : ℚ) * 5 ∧
      (16000 : ℚ) * 5 - ((record_audio 16000 1 5).nframes : ℚ) ≤ 1024 ∧
      record_chunk 5 16000 = record_audio 16000 1 5) ∧
    (record_audio 16000 1 5).nframes = 79872 := by
  constructor
  · exact C7_record_frame_count 16000 5 (by norm_num)
  · norm_num [record_audio, total_chunks, pyInt, DEFAULT_CHUNK_SIZE]
    decide

/-! ## Claim C10 -/

/-- C10: `transcribe_file` with any backend other than "mlx" and "groq"
(in particular "gemini") raises a `ValueError` naming the backend, with an
empty side-effect trace (no file access, no network), even though "gemini"
is an accepted backend for live transcription. -/
theorem C10_gemini_not_a_file_backend (file_path backend : String)
    (file_exists : Bool) (groq_api_key : Option String)
    (inference : Except String String) (api : Except PyExc String)
    (hm : backend ≠ "mlx") (hg : backend ≠ "groq") :
    transcribe_file file_path backend file_exists groq_api_key inference api
      = (.error (.valueError ("Backend '" ++ backend ++ "' not supported for file transcription.")),
         []) ∧
    run_live_transcription_dispatch "gemini" = .ok .gemini := by
  constructor
  · simp only [transcribe_file, hm, hg, if_false]
  · rfl

/-- Witness for C10 at backend "gemini". -/
theorem C10_gemini_not_a_file_backend_witness :
    transcribe_file "x.wav" "gemini" true none (.ok "hi") (.ok "hi")
      = (.error (.valueError "Backend 'gemini' not supported for file transcription."),
         []) ∧
    run_live_transcription_dispatch "gemini" = .ok .gemini :=
  C10_gemini_not_a_file_backend "x.wav" "gemini" true none (.ok "hi") (.ok "hi")
    (by decide) (by decide)

end Kopichat
